import Mathlib

/-!
Verification development for the Finance-Chatbot repository.

This file shallowly embeds the query-routing and portfolio/risk-analytics
core of the repository in Lean 4 and proves properties of the embedding.

Modelling conventions:
* Python floats are modelled by `ℚ`.  Square roots (`np.sqrt`, used by the
  volatility / Sharpe / correlation computations) are not rational, so every
  definition that needs one is parameterised by a function `sq : ℚ → ℚ`
  standing for the numeric library's square root; theorems that depend on
  its defining property take it as an explicit hypothesis.
  Division by zero in `ℚ` is total (`x / 0 = 0`); the spots where the Python
  code would instead raise (`ZeroDivisionError`) are modelled by explicit
  error returns, and the spots where pandas would produce `NaN` on degenerate
  input (standard deviation of fewer than two samples, quantile of an empty
  series) are modelled as `0`; no claim below depends on those values.
* A pandas `Series` of closing prices is modelled as a `List ℚ` ordered by
  time ascending; series arising from the same request window are treated as
  positionally aligned (pandas aligns them by their shared date index).
* A Python dict is modelled as an association list updated in insertion
  order (`updateA`), matching dict iteration order.
* Fallible calls are modelled with `Except String`: `Except.error e`
  models a raised exception carrying message `e`.
-/

/-- First value bound to `k` in an association list (Python `d[k]` / `in`). -/
def lookupA {α : Type} : List (String × α) → String → Option α
  | [], _ => none
  | (k, v) :: t, key => if k = key then some v else lookupA t key

/-- `d.get(k, dflt)` on an association list. -/
def lookupD {α : Type} (l : List (String × α)) (key : String) (dflt : α) : α :=
  (lookupA l key).getD dflt

/-- Dict update `d[k] = v`: replaces the binding in place or appends it. -/
def updateA {α : Type} : List (String × α) → String → α → List (String × α)
  | [], key, v => [(key, v)]
  | (k, w) :: t, key, v =>
      if k = key then (key, v) :: t else (k, w) :: updateA t key v

@[simp] theorem lookupA_nil {α : Type} (key : String) :
    lookupA ([] : List (String × α)) key = none := rfl

@[simp] theorem lookupA_cons {α : Type} (k : String) (v : α) (t : List (String × α))
    (key : String) :
    lookupA ((k, v) :: t) key = if k = key then some v else lookupA t key := rfl

theorem lookupA_updateA_self {α : Type} (l : List (String × α)) (key : String) (v : α) :
    lookupA (updateA l key v) key = some v := by
  induction l with
  | nil => simp [updateA]
  | cons hd t ih =>
      obtain ⟨k, w⟩ := hd
      by_cases h : k = key
      · simp [updateA, h]
      · simp [updateA, h, ih]

/-! ## Quote Cache (`APIAgent.get_stock_data`, src/Agents.py)

The upstream market-data provider (`yfinance`) is modelled as a function
`provider : ticker → period → interval → Except String (List ℚ)`; the
current wall-clock time is an explicit parameter `now`.  The third component
of the result counts upstream fetches issued by the call (0 or 1). -/

/-- The mutable state of `APIAgent`: `self.cache` and `self.cache_expiry`. -/
structure AgentState where
  cache : List (String × List ℚ)
  cacheExpiry : List (String × ℚ)
deriving DecidableEq, Repr

/-- `self.cache_duration = 300` (seconds). -/
def cache_duration : ℚ := 300

/-- Cache key `f"{ticker}_{period}_{interval}"`. -/
def cacheKey (ticker period interval : String) : String :=
  ticker ++ "_" ++ period ++ "_" ++ interval

/-- A live (non-expired) entry exists for `key` at time `now`:
`cache_key in self.cache and self.cache_expiry.get(cache_key, 0) > now`. -/
def cacheLive (st : AgentState) (key : String) (now : ℚ) : Prop :=
  (lookupA st.cache key).isSome = true ∧ now < lookupD st.cacheExpiry key 0

instance (st : AgentState) (key : String) (now : ℚ) : Decidable (cacheLive st key now) :=
  inferInstanceAs (Decidable (_ ∧ _))

/-- `APIAgent.get_stock_data` (src/Agents.py lines 27-57).  Serves a live
cached series without an upstream call; otherwise fetches, stores the result
with expiry `now + cache_duration`, and returns it.  A provider exception is
logged and re-raised (`raise`), leaving the cache unchanged. -/
def get_stock_data (provider : String → String → String → Except String (List ℚ))
    (now : ℚ) (st : AgentState) (ticker : String) (period : String := "1d")
    (interval : String := "1h") :
    Except String (List ℚ) × AgentState × Nat :=
  let key := cacheKey ticker period interval
  if cacheLive st key now then
    (Except.ok (lookupD st.cache key []), st, 0)
  else
    match provider ticker period interval with
    | Except.ok data =>
        (Except.ok data,
         { cache := updateA st.cache key data,
           cacheExpiry := updateA st.cacheExpiry key (now + cache_duration) }, 1)
    | Except.error e => (Except.error e, st, 1)

/-- `APIAgent.get_multiple_stocks` (src/Agents.py lines 59-78): fetches each
ticker with `get_stock_data(ticker, period)`, catching any exception and
recording `None` for that ticker.  Threads the cache state through the loop
and accumulates the total number of upstream fetches. -/
def get_multiple_stocks (provider : String → String → String → Except String (List ℚ))
    (now : ℚ) (st : AgentState) (tickers : List String) (period : String := "1d") :
    List (String × Option (List ℚ)) × AgentState × Nat :=
  match tickers with
  | [] => ([], st, 0)
  | t :: rest =>
      let r := get_stock_data provider now st t period
      let rec' := get_multiple_stocks provider now r.2.1 rest period
      let entry : Option (List ℚ) :=
        match r.1 with
        | Except.ok data => some data
        | Except.error _ => none
      ((t, entry) :: rec'.1, rec'.2.1, r.2.2 + rec'.2.2)

/-! ## Analytics Engine (`AnalysisAgent`, src/agents/analysis_agent.py)

The pandas/numpy primitives the agent uses are embedded first.  `mean`,
sample variance/covariance (`ddof=1`) and the linear-interpolation quantile
follow the pandas formulas; a standard deviation or covariance of fewer than
two samples, the mean of an empty series and the quantile of an empty series
are modelled as `0` (pandas yields `NaN` there; no claim depends on them). -/

/-- `prices.pct_change().dropna()`: one element shorter than its source. -/
def pctChange (prices : List ℚ) : List ℚ :=
  List.zipWith (fun prev cur => cur / prev - 1) prices prices.tail

/-- `series.mean()`. -/
def meanQ (xs : List ℚ) : ℚ := xs.sum / xs.length

/-- Sample covariance with `ddof = 1` (pandas `.cov()`), on positionally
aligned series. -/
def sampleCov (xs ys : List ℚ) : ℚ :=
  if xs.length < 2 then 0
  else (List.zipWith (fun x y => (x - meanQ xs) * (y - meanQ ys)) xs ys).sum
        / ((xs.length : ℚ) - 1)

/-- Sample variance (`series.var()`, `ddof = 1`). -/
def varSample (xs : List ℚ) : ℚ := sampleCov xs xs

/-- `series.std()` = square root of the sample variance, with the square
root supplied as the parameter `sq`. -/
def stdQ (sq : ℚ → ℚ) (xs : List ℚ) : ℚ := sq (varSample xs)

/-- `series.iloc[-n:]`: the most recent `n` samples. -/
def lastN {α : Type} (n : Nat) (xs : List α) : List α := xs.drop (xs.length - n)

/-- Insertion step for sorting a rational series. -/
def insertSorted (x : ℚ) : List ℚ → List ℚ
  | [] => [x]
  | y :: t => if x ≤ y then x :: y :: t else y :: insertSorted x t

/-- Ascending sort of a rational series. -/
def sortQ (xs : List ℚ) : List ℚ := xs.foldr insertSorted []

/-- `series.quantile(q)` with pandas' default linear interpolation:
position `q * (n - 1)` between the sorted order statistics. -/
def quantileQ (xs : List ℚ) (q : ℚ) : ℚ :=
  match xs with
  | [] => 0
  | _ :: _ =>
      let s := sortQ xs
      let pos : ℚ := q * ((s.length : ℚ) - 1)
      let i : Nat := (⌊pos⌋).toNat
      let lo := s.getD i 0
      match s.get? (i + 1) with
      | some hi => lo + (pos - (i : ℚ)) * (hi - lo)
      | none => lo

/-- `AnalysisAgent.calculate_volatility` (lines 23-49): annualized standard
deviation of the most recent `window` daily returns (all returns when fewer
than `window` are available). -/
def calculate_volatility (sq : ℚ → ℚ) (prices : List ℚ) (window : Nat := 20) : ℚ :=
  let returns := pctChange prices
  if returns.length < window then stdQ sq returns * sq 252
  else stdQ sq (lastN window returns) * sq 252

/-- `AnalysisAgent.calculate_beta` (lines 51-91): covariance of the aligned
stock/market returns over the variance of the market returns, restricted to
the most recent `window` aligned samples; `1` when the market variance is
zero (market-neutral default). -/
def calculate_beta (stock_prices market_prices : List ℚ) (window : Nat := 60) : ℚ :=
  let pairs := List.zip (pctChange stock_prices) (pctChange market_prices)
  let pairs := if pairs.length > window then lastN window pairs else pairs
  let covariance := sampleCov (pairs.map Prod.fst) (pairs.map Prod.snd)
  let market_variance := varSample (pairs.map Prod.snd)
  if market_variance = 0 then 1 else covariance / market_variance

/-- `AnalysisAgent.calculate_sharpe_ratio` (lines 93-123): annualized mean
return minus the risk-free rate over the annualized standard deviation,
`0` when that deviation is zero. -/
def calculate_sharpe_ratio (sq : ℚ → ℚ) (returns : List ℚ)
    (risk_free_rate : ℚ := 7 / 200) (window : Nat := 252) : ℚ :=
  let r := if returns.length > window then lastN window returns else returns
  let mean_return := meanQ r * 252
  let std_dev := stdQ sq r * sq 252
  if std_dev = 0 then 0 else (mean_return - risk_free_rate) / std_dev

/-- `AnalysisAgent.calculate_var` (lines 166-189): historical quantile at
`1 - confidence` of the most recent `window` returns, as a percentage. -/
def calculate_var (returns : List ℚ) (confidence : ℚ := 19 / 20)
    (window : Nat := 252) : ℚ :=
  let r := if returns.length > window then lastN window returns else returns
  quantileQ r (1 - confidence) * 100

/-- Tail of `series.cummax()` once the running maximum is `m`. -/
def runningMaxAux (m : ℚ) : List ℚ → List ℚ
  | [] => []
  | p :: t => max m p :: runningMaxAux (max m p) t

/-- `prices.cummax()`. -/
def runningMax : List ℚ → List ℚ
  | [] => []
  | p :: t => p :: runningMaxAux p t

/-- `(prices / running_max - 1) * 100`, elementwise. -/
def drawdownSeries (prices : List ℚ) : List ℚ :=
  List.zipWith (fun p m => (p / m - 1) * 100) prices (runningMax prices)

/-- `series.min()` of a nonempty series (`0` for the empty one, where pandas
would give `NaN` and the surrounding code falls into its failure default). -/
def minQ : List ℚ → ℚ
  | [] => 0
  | x :: t => t.foldl min x

/-- Position scan for `series.idxmin()`. -/
def idxminAux : List ℚ → ℚ → Nat → Nat → Nat
  | [], _, best, _ => best
  | x :: t, bv, best, i =>
      if x < bv then idxminAux t x i (i + 1) else idxminAux t bv best (i + 1)

/-- `series.idxmin()` on a positionally indexed series: the position of the
first occurrence of the minimum. -/
def idxminQ : List ℚ → Nat
  | [] => 0
  | x :: t => idxminAux t x 0 1

/-- Result bundle of `calculate_drawdown`. -/
structure DrawdownResult where
  max_drawdown : ℚ
  duration : ℤ
deriving DecidableEq, Repr

/-- `AnalysisAgent.calculate_drawdown` (lines 125-164), for a positionally
(integer-)indexed series.  The failure default `{max_drawdown: 0.0,
duration: 0}` is reached for an empty series (`min`/`idxmin` raise) and when
the trough is at position 0 (`prices.iloc[:0].idxmax()` raises on the empty
slice); with integer labels the `isinstance(..., pd.Timestamp)` test is
false, so `duration` is 0 on the success path.  (With a datetime index the
`prices.iloc[:timestamp]` slice itself raises, so every call would return
the same failure default, for which the claims proved below also hold.) -/
def calculate_drawdown (prices : List ℚ) : DrawdownResult :=
  match prices with
  | [] => ⟨0, 0⟩
  | _ :: _ =>
      let dd := drawdownSeries prices
      if idxminQ dd = 0 then ⟨0, 0⟩ else ⟨minQ dd, 0⟩

/-! ## Helper lemmas -/

theorem foldl_min_le (t : List ℚ) (a : ℚ) : t.foldl min a ≤ a := by
  induction t generalizing a with
  | nil => exact le_refl a
  | cons b t ih => exact le_trans (ih (min a b)) (min_le_left a b)

theorem minQ_cons_le (x : ℚ) (t : List ℚ) : minQ (x :: t) ≤ x :=
  foldl_min_le t x

/-- The first drawdown entry is `0` for a nonzero first price and `-100`
when the first price is zero (rational division by zero). -/
theorem drawdownSeries_head (p : ℚ) (rest : List ℚ) :
    drawdownSeries (p :: rest)
      = (p / p - 1) * 100
          :: List.zipWith (fun q m => (q / m - 1) * 100) rest (runningMaxAux p rest) := by
  simp [drawdownSeries, runningMax]

theorem drawdown_head_nonpos (p : ℚ) : (p / p - 1) * 100 ≤ 0 := by
  by_cases h : p = 0
  · simp [h]
  · simp [div_self h]

/-- C5: for every price series, the `max_drawdown` returned by
`calculate_drawdown` is at most `0`, including the failure default `0.0`:
the minimum relative drawdown from the running maximum never exceeds zero. -/
theorem c5_max_drawdown_nonpositive (prices : List ℚ) :
    (calculate_drawdown prices).max_drawdown ≤ 0 := by
  cases prices with
  | nil => exact le_refl 0
  | cons p rest =>
      show (if idxminQ (drawdownSeries (p :: rest)) = 0
              then (⟨0, 0⟩ : DrawdownResult)
              else ⟨minQ (drawdownSeries (p :: rest)), 0⟩).max_drawdown ≤ 0
      by_cases h : idxminQ (drawdownSeries (p :: rest)) = 0
      · simp [h]
      · rw [if_neg h]
        rw [drawdownSeries_head]
        exact le_trans (minQ_cons_le _ _) (drawdown_head_nonpos p)

/-- C2 counterexample: with a provider that raises and a cold cache, the
claimed degradation does not happen — `get_stock_data` returns the raised
provider error itself (re-raise), not an empty/default value. -/
theorem c2_provider_error_propagates :
    get_stock_data (fun _ _ _ => Except.error "network down") 0 ⟨[], []⟩ "AAPL" "1d" "1h"
      = (Except.error "network down", ⟨[], []⟩, 1) := by
  rfl

/-- C2 (amended): on a cache miss with a failing provider, `get_stock_data`
re-raises the provider error unchanged and leaves the cache state untouched;
the degradation to a default happens one level up, in callers such as
`get_multiple_stocks`, which catches the error and records `None` for the
failing ticker. -/
theorem c2_error_reraised_and_degraded_by_caller
    (provider : String → String → String → Except String (List ℚ))
    (now : ℚ) (st : AgentState) (t p : String) (e : String)
    (hmiss : ¬ cacheLive st (cacheKey t p "1h") now)
    (herr : provider t p "1h" = Except.error e) :
    get_stock_data provider now st t p "1h" = (Except.error e, st, 1)
      ∧ get_multiple_stocks provider now st [t] p = ([(t, none)], st, 1) := by
  have h1 : get_stock_data provider now st t p "1h" = (Except.error e, st, 1) := by
    unfold get_stock_data
    rw [if_neg hmiss, herr]
  refine ⟨h1, ?_⟩
  unfold get_multiple_stocks
  rw [h1]
  rfl

/-- Witness for `c2_error_reraised_and_degraded_by_caller` at a concrete
cold cache and failing provider. -/
theorem c2_error_reraised_witness :
    ¬ cacheLive ⟨[], []⟩ (cacheKey "AAPL" "1d" "1h") 0
      ∧ ((fun _ _ _ => Except.error "network down" :
            String → String → String → Except String (List ℚ)) "AAPL" "1d" "1h"
          = Except.error "network down")
      ∧ (get_stock_data (fun _ _ _ => Except.error "network down") 0 ⟨[], []⟩ "AAPL" "1d" "1h"
            = (Except.error "network down", ⟨[], []⟩, 1)
          ∧ get_multiple_stocks (fun _ _ _ => Except.error "network down") 0 ⟨[], []⟩ ["AAPL"] "1d"
            = ([("AAPL", none)], ⟨[], []⟩, 1)) :=
  ⟨by decide, rfl,
   c2_error_reraised_and_degraded_by_caller _ 0 _ "AAPL" "1d" "network down" (by decide) rfl⟩

/-- C3: for a cache key that misses at time `now1` and a succeeding
provider, the first `get_stock_data` call issues exactly one upstream fetch
and stores the series with expiry `now1 + cache_duration`; a second call
within `cache_duration` of that fetch issues no upstream call and returns
the stored series unchanged; a call strictly after the stored expiry issues
a second upstream fetch and replaces the entry (new series binding, new
expiry). -/
theorem c3_cache_single_fetch_and_refresh
    (provider : String → String → String → Except String (List ℚ))
    (st0 : AgentState) (t p i : String) (now1 now2 now3 : ℚ) (data : List ℚ)
    (hfetch : provider t p i = Except.ok data)
    (hmiss : ¬ cacheLive st0 (cacheKey t p i) now1) :
    get_stock_data provider now1 st0 t p i
        = (Except.ok data,
           ⟨updateA st0.cache (cacheKey t p i) data,
            updateA st0.cacheExpiry (cacheKey t p i) (now1 + cache_duration)⟩, 1)
      ∧ (now2 < now1 + cache_duration →
          get_stock_data provider now2
              ⟨updateA st0.cache (cacheKey t p i) data,
               updateA st0.cacheExpiry (cacheKey t p i) (now1 + cache_duration)⟩ t p i
            = (Except.ok data,
               ⟨updateA st0.cache (cacheKey t p i) data,
                updateA st0.cacheExpiry (cacheKey t p i) (now1 + cache_duration)⟩, 0))
      ∧ (now1 + cache_duration < now3 →
          ∃ st2 : AgentState,
            get_stock_data provider now3
                ⟨updateA st0.cache (cacheKey t p i) data,
                 updateA st0.cacheExpiry (cacheKey t p i) (now1 + cache_duration)⟩ t p i
              = (Except.ok data, st2, 1)
            ∧ lookupA st2.cache (cacheKey t p i) = some data
            ∧ lookupD st2.cacheExpiry (cacheKey t p i) 0 = now3 + cache_duration) := by
  set key := cacheKey t p i with hkey
  set st1 : AgentState :=
    ⟨updateA st0.cache key data, updateA st0.cacheExpiry key (now1 + cache_duration)⟩
    with hst1
  have hc : lookupA st1.cache key = some data := lookupA_updateA_self _ _ _
  have he : lookupD st1.cacheExpiry key 0 = now1 + cache_duration := by
    unfold lookupD
    rw [lookupA_updateA_self]
    rfl
  refine ⟨?_, ?_, ?_⟩
  · unfold get_stock_data
    rw [← hkey, if_neg hmiss, hfetch]
  · intro h2
    have hlive : cacheLive st1 key now2 := by
      constructor
      · rw [hc]; rfl
      · rw [he]; exact h2
    unfold get_stock_data
    rw [← hkey, if_pos hlive]
    unfold lookupD
    rw [hc]
    rfl
  · intro h3
    have hdead : ¬ cacheLive st1 key now3 := by
      intro hlive
      exact absurd (he ▸ hlive.2) (lt_asymm h3)
    refine ⟨⟨updateA st1.cache key data,
             updateA st1.cacheExpiry key (now3 + cache_duration)⟩, ?_, ?_, ?_⟩
    · unfold get_stock_data
      rw [← hkey, if_neg hdead, hfetch]
    · exact lookupA_updateA_self _ _ _
    · unfold lookupD
      rw [lookupA_updateA_self]
      rfl

/-- Witness for `c3_cache_single_fetch_and_refresh`: a cold cache, a
constant provider, first call at `t = 0`, second at `t = 100` (within the
300-second window), third at `t = 400` (after expiry). -/
theorem c3_cache_witness :
    ((fun _ _ _ => Except.ok [(5 : ℚ)] :
        String → String → String → Except String (List ℚ)) "AAPL" "1d" "1h"
        = Except.ok [(5 : ℚ)])
      ∧ ¬ cacheLive ⟨[], []⟩ (cacheKey "AAPL" "1d" "1h") 0
      ∧ (get_stock_data (fun _ _ _ => Except.ok [(5 : ℚ)]) 0 ⟨[], []⟩ "AAPL" "1d" "1h"
          = (Except.ok [(5 : ℚ)],
             ⟨updateA [] (cacheKey "AAPL" "1d" "1h") [(5 : ℚ)],
              updateA [] (cacheKey "AAPL" "1d" "1h") ((0 : ℚ) + cache_duration)⟩, 1)
        ∧ ((100 : ℚ) < 0 + cache_duration →
            get_stock_data (fun _ _ _ => Except.ok [(5 : ℚ)]) 100
                ⟨updateA [] (cacheKey "AAPL" "1d" "1h") [(5 : ℚ)],
                 updateA [] (cacheKey "AAPL" "1d" "1h") ((0 : ℚ) + cache_duration)⟩
                "AAPL" "1d" "1h"
              = (Except.ok [(5 : ℚ)],
                 ⟨updateA [] (cacheKey "AAPL" "1d" "1h") [(5 : ℚ)],
                  updateA [] (cacheKey "AAPL" "1d" "1h") ((0 : ℚ) + cache_duration)⟩, 0))
        ∧ ((0 : ℚ) + cache_duration < 400 →
            ∃ st2 : AgentState,
              get_stock_data (fun _ _ _ => Except.ok [(5 : ℚ)]) 400
                  ⟨updateA [] (cacheKey "AAPL" "1d" "1h") [(5 : ℚ)],
                   updateA [] (cacheKey "AAPL" "1d" "1h") ((0 : ℚ) + cache_duration)⟩
                  "AAPL" "1d" "1h"
                = (Except.ok [(5 : ℚ)], st2, 1)
              ∧ lookupA st2.cache (cacheKey "AAPL" "1d" "1h") = some [(5 : ℚ)]
              ∧ lookupD st2.cacheExpiry (cacheKey "AAPL" "1d" "1h") 0
                  = (400 : ℚ) + cache_duration)) :=
  ⟨rfl, by decide,
   c3_cache_single_fetch_and_refresh (fun _ _ _ => Except.ok [(5 : ℚ)])
     ⟨[], []⟩ "AAPL" "1d" "1h" 0 100 400 [(5 : ℚ)] rfl (by decide)⟩

/-! ## Portfolio Aggregator (`AnalysisAgent.analyze_portfolio`, lines 191-303)

The API agent passed to `analyze_portfolio` is modelled directly by its
provider function `fetch` (the Quote Cache layer is deterministic for a
fixed provider and is verified separately above); `Except.error` models a
raised exception from `get_stock_data`. -/

/-- Per-asset metric bundle stored in `individual_metrics`. -/
structure AssetMetrics where
  volatility : ℚ
  beta : ℚ
  sharpe_ratio : ℚ
  max_drawdown : ℚ
  drawdown_duration : ℤ
  var_95 : ℚ
deriving DecidableEq, Repr

/-- An `individual_metrics` entry: a metric bundle, or the `{error: msg}`
record written when analysing that ticker raised. -/
inductive IndEntry where
  | metrics (m : AssetMetrics)
  | failed (msg : String)
deriving DecidableEq, Repr

/-- Portfolio-level metric bundle (`portfolio_metrics` key). -/
structure PortfolioLevel where
  volatility : ℚ
  beta : ℚ
  sharpe_ratio : ℚ
  max_drawdown : ℚ
  drawdown_duration : ℤ
  var_95 : ℚ
  correlation_matrix : List (String × List (String × ℚ))
deriving DecidableEq, Repr

/-- The `PortfolioMetrics` result dictionary. -/
structure PortfolioMetrics where
  tickers : List String
  weights : List ℚ
  individual_metrics : List (String × IndEntry)
  portfolio_metrics : PortfolioLevel
deriving DecidableEq, Repr

/-- `Series.add(other, fill_value=0)` on positionally aligned series:
pointwise sum, the shorter series padded with `0`. -/
def addFill : List ℚ → List ℚ → List ℚ
  | [], ys => ys
  | x :: xs, [] => x :: xs
  | x :: xs, y :: ys => (x + y) :: addFill xs ys

/-- Pearson correlation as pandas computes it: sample covariance over the
product of the sample standard deviations (`0` for the degenerate zero
denominator, where pandas yields `NaN`). -/
def corrQ (sq : ℚ → ℚ) (xs ys : List ℚ) : ℚ :=
  let d := sq (varSample xs) * sq (varSample ys)
  if d = 0 then 0 else sampleCov xs ys / d

/-- `.round(2)`: round to two decimals.  (Mathlib's `round` rounds halves
up where numpy rounds them to even; no value proved below sits on a half.) -/
def round2 (x : ℚ) : ℚ := ((round (x * 100) : ℤ) : ℚ) / 100

/-- `returns_df.corr().round(2).to_dict()`: the pairwise correlation matrix
of the stored return series, as a nested dictionary. -/
def corrMatrix (sq : ℚ → ℚ) (rd : List (String × List ℚ)) :
    List (String × List (String × ℚ)) :=
  rd.map (fun a => (a.1, rd.map (fun b => (b.1, round2 (corrQ sq a.2 b.2)))))

/-- The per-ticker loop of `analyze_portfolio` (lines 224-253): builds the
`individual_metrics` and `returns_data` dictionaries in insertion order.  A
fetch that raises produces an error record and no `returns_data` entry. -/
def indLoop (sq : ℚ → ℚ) (fetch : String → String → String → Except String (List ℚ))
    (market_data : List ℚ) (tickers : List String) :
    List (String × IndEntry) × List (String × List ℚ) :=
  tickers.foldl
    (fun acc t =>
      match fetch t "1y" "1d" with
      | Except.error e => (updateA acc.1 t (IndEntry.failed e), acc.2)
      | Except.ok data =>
          let returns := pctChange data
          let m : AssetMetrics :=
            { volatility := calculate_volatility sq data * 100,
              beta := calculate_beta data market_data,
              sharpe_ratio := calculate_sharpe_ratio sq returns,
              max_drawdown := (calculate_drawdown data).max_drawdown,
              drawdown_duration := (calculate_drawdown data).duration,
              var_95 := calculate_var returns }
          (updateA acc.1 t (IndEntry.metrics m), updateA acc.2 t returns))
    ([], [])

/-- Lines 256-261: the blended portfolio return series, starting from an
all-zero series on the index of the first stored return series and adding
each ticker's weighted returns with `fill_value=0`. -/
def blendReturns (tickers : List String) (weights : List ℚ)
    (rd : List (String × List ℚ)) : List ℚ :=
  (List.zip tickers weights).foldl
    (fun acc tw =>
      match lookupA rd tw.1 with
      | some r => addFill acc (r.map (fun x => x * tw.2))
      | none => acc)
    (List.replicate ((rd.head?.map (fun a => a.2.length)).getD 0) 0)

/-- Lines 272-276: portfolio beta as the weighted sum of the stored
individual betas, an error record contributing `.get('beta', 0) = 0`. -/
def portfolioBeta (tickers : List String) (weights : List ℚ)
    (im : List (String × IndEntry)) : ℚ :=
  (List.zip tickers weights).foldl
    (fun acc tw =>
      match lookupA im tw.1 with
      | some (IndEntry.metrics m) => acc + m.beta * tw.2
      | some (IndEntry.failed _) => acc + 0 * tw.2
      | none => acc)
    0

/-- Lines 280-282: the synthetic cumulative value series, starting at `1.0`
on the blended index and compounding from the second return onwards. -/
def pvAux (v : ℚ) : List ℚ → List ℚ
  | [] => []
  | r :: rest => v * (1 + r) :: pvAux (v * (1 + r)) rest

/-- `portfolio_value`: same length as the blended return series. -/
def portfolioValue : List ℚ → List ℚ
  | [] => []
  | _ :: rest => 1 :: pvAux 1 rest

/-- `AnalysisAgent.analyze_portfolio` (lines 191-303).  Python exception
points are modelled explicitly: normalizing a nonempty weight list whose sum
is zero raises `ZeroDivisionError`, and an empty `returns_data` makes
`next(iter(...))` raise `StopIteration` (whose `str` is the empty string);
both are caught by the outer handler and become `{error: str(e)}`. -/
def analyze_portfolio (sq : ℚ → ℚ)
    (fetch : String → String → String → Except String (List ℚ))
    (portfolio_tickers : List String) (weights : Option (List ℚ) := none) :
    Except String PortfolioMetrics :=
  let w0 := match weights with
    | none => portfolio_tickers.map (fun _ => 1 / (portfolio_tickers.length : ℚ))
    | some ws => ws
  if w0 ≠ [] ∧ w0.sum = 0 then Except.error "float division by zero"
  else
    let nweights := w0.map (fun w => w / w0.sum)
    match fetch "^GSPC" "1y" "1d" with
    | Except.error e => Except.error e
    | Except.ok market_data =>
        let ind := indLoop sq fetch market_data portfolio_tickers
        if ind.2 = [] then Except.error ""
        else
          let pr := blendReturns portfolio_tickers nweights ind.2
          Except.ok
            { tickers := portfolio_tickers,
              weights := nweights,
              individual_metrics := ind.1,
              portfolio_metrics :=
                { volatility := stdQ sq pr * sq 252 * 100,
                  beta := portfolioBeta portfolio_tickers nweights ind.1,
                  sharpe_ratio := calculate_sharpe_ratio sq pr,
                  max_drawdown := (calculate_drawdown (portfolioValue pr)).max_drawdown,
                  drawdown_duration := (calculate_drawdown (portfolioValue pr)).duration,
                  var_95 := calculate_var pr,
                  correlation_matrix := corrMatrix sq ind.2 } }

theorem sum_map_div (l : List ℚ) (s : ℚ) :
    (l.map (fun w => w / s)).sum = l.sum / s := by
  induction l with
  | nil => simp
  | cons x t ih => simp [ih, add_div]

/-- Weights stored by a successful `analyze_portfolio` call are the input
weights (resp. the equal-allocation default) divided by their sum. -/
theorem analyze_portfolio_ok_weights (sq : ℚ → ℚ)
    (fetch : String → String → String → Except String (List ℚ))
    (tks : List String) (ws : Option (List ℚ)) (pm : PortfolioMetrics)
    (hok : analyze_portfolio sq fetch tks ws = Except.ok pm) :
    pm.weights
      = (match ws with
          | none => tks.map (fun _ => 1 / (tks.length : ℚ))
          | some w => w).map
          (fun w => w / (match ws with
            | none => tks.map (fun _ => 1 / (tks.length : ℚ))
            | some w => w).sum) := by
  simp only [analyze_portfolio] at hok
  split at hok
  · simp at hok
  · split at hok
    · simp at hok
    · split at hok
      · simp at hok
      · cases hok
        rfl

/-- C4: for every non-empty ticker list, the weights stored in a successful
`analyze_portfolio` result built from a supplied weight list of positive
total sum to `1.0` within tolerance `1e-9` (in the rational model they sum
to exactly `1`); with no supplied weights the stored weights are the equal
allocation `1/len(tickers)`. -/
theorem c4_weights_normalized (sq : ℚ → ℚ)
    (fetch : String → String → String → Except String (List ℚ))
    (tks : List String) (ws : List ℚ) (pm pm' : PortfolioMetrics)
    (hpos : 0 < ws.sum)
    (hok : analyze_portfolio sq fetch tks (some ws) = Except.ok pm)
    (hne : tks ≠ [])
    (hok' : analyze_portfolio sq fetch tks none = Except.ok pm') :
    |pm.weights.sum - 1| ≤ 1 / 1000000000
      ∧ pm'.weights = List.replicate tks.length (1 / (tks.length : ℚ)) := by
  constructor
  · have h1 := analyze_portfolio_ok_weights sq fetch tks (some ws) pm hok
    simp only at h1
    rw [h1, sum_map_div, div_self (ne_of_gt hpos)]
    norm_num
  · have hlen : (tks.length : ℚ) ≠ 0 :=
      Nat.cast_ne_zero.mpr (Nat.pos_iff_ne_zero.mp (List.length_pos.mpr hne))
    have h2 := analyze_portfolio_ok_weights sq fetch tks none pm' hok'
    simp only at h2
    have hsum : (tks.map (fun _ => 1 / (tks.length : ℚ))).sum = 1 := by
      rw [show (fun _ : String => 1 / (tks.length : ℚ))
            = Function.const String (1 / (tks.length : ℚ)) from rfl,
          List.map_const, List.sum_replicate, nsmul_eq_mul]
      field_simp
    rw [h2, hsum, List.map_map]
    have : ((fun w => w / 1) ∘ fun _ : String => 1 / (tks.length : ℚ))
        = Function.const String (1 / (tks.length : ℚ)) := by
      funext x
      simp
    rw [this, List.map_const]

/-- Decidable equality for `Except` results, used to evaluate the embedding
at concrete inputs. -/
instance {e a : Type} [DecidableEq e] [DecidableEq a] : DecidableEq (Except e a)
  | Except.ok x, Except.ok y =>
      if h : x = y then isTrue (by rw [h]) else isFalse (by intro hc; cases hc; exact h rfl)
  | Except.error x, Except.error y =>
      if h : x = y then isTrue (by rw [h]) else isFalse (by intro hc; cases hc; exact h rfl)
  | Except.ok _, Except.error _ => isFalse (by intro hc; cases hc)
  | Except.error _, Except.ok _ => isFalse (by intro hc; cases hc)

/-- Witness for `c4_weights_normalized`: one ticker, supplied weights `[2]`
(positive sum, scale 2) and the no-weights default, with a provider that
returns empty series. -/
theorem c4_weights_witness :
    (0 : ℚ) < [(2 : ℚ)].sum
      ∧ (["AAPL"] : List String) ≠ []
      ∧ ∃ pm pm' : PortfolioMetrics,
          analyze_portfolio (fun _ => 0) (fun _ _ _ => Except.ok []) ["AAPL"]
              (some [(2 : ℚ)]) = Except.ok pm
          ∧ analyze_portfolio (fun _ => 0) (fun _ _ _ => Except.ok []) ["AAPL"] none
              = Except.ok pm'
          ∧ |pm.weights.sum - 1| ≤ 1 / 1000000000
          ∧ pm'.weights
              = List.replicate (["AAPL"] : List String).length
                  (1 / (((["AAPL"] : List String).length : ℕ) : ℚ)) := by
  have heval :
      analyze_portfolio (fun _ => 0) (fun _ _ _ => Except.ok []) ["AAPL"]
          (some [(2 : ℚ)])
        = Except.ok ⟨["AAPL"], [1], [("AAPL", IndEntry.metrics ⟨0, 1, 0, 0, 0, 0⟩)],
            ⟨0, 1, 0, 0, 0, 0, [("AAPL", [("AAPL", 0)])]⟩⟩ := by
    norm_num [analyze_portfolio, indLoop, blendReturns, portfolioBeta, portfolioValue,
      corrMatrix, corrQ, round2, updateA, calculate_volatility, calculate_beta,
      calculate_sharpe_ratio, calculate_var, calculate_drawdown, quantileQ, sortQ,
      pctChange, stdQ, varSample, sampleCov, meanQ, lastN, lookupA, addFill]
  have heval' :
      analyze_portfolio (fun _ => 0) (fun _ _ _ => Except.ok []) ["AAPL"] none
        = Except.ok ⟨["AAPL"], [1], [("AAPL", IndEntry.metrics ⟨0, 1, 0, 0, 0, 0⟩)],
            ⟨0, 1, 0, 0, 0, 0, [("AAPL", [("AAPL", 0)])]⟩⟩ := by
    norm_num [analyze_portfolio, indLoop, blendReturns, portfolioBeta, portfolioValue,
      corrMatrix, corrQ, round2, updateA, calculate_volatility, calculate_beta,
      calculate_sharpe_ratio, calculate_var, calculate_drawdown, quantileQ, sortQ,
      pctChange, stdQ, varSample, sampleCov, meanQ, lastN, lookupA, addFill]
  refine ⟨by norm_num, by decide, ?_⟩
  refine ⟨_, _, heval, heval', ?_⟩
  exact c4_weights_normalized (fun _ => 0) (fun _ _ _ => Except.ok []) ["AAPL"]
    [(2 : ℚ)] _ _ (by norm_num) heval (by decide) heval'

theorem addFill_replicate_zero (xs : List ℚ) :
    addFill (List.replicate xs.length 0) xs = xs := by
  induction xs with
  | nil => rfl
  | cons x t ih => simp [List.replicate, addFill, ih]

theorem addFill_map_map (f g : ℚ → ℚ) (xs : List ℚ) :
    addFill (xs.map f) (xs.map g) = xs.map (fun x => f x + g x) := by
  induction xs with
  | nil => rfl
  | cons x t ih => simp [addFill, ih]

/-- Blending the same return series under two weights summing to `1`
reproduces the series. -/
theorem blend_pair_identical (R : List ℚ) (w : ℚ) (hw : w + w = 1) :
    blendReturns ["AAA", "BBB"] [w, w] [("AAA", R), ("BBB", R)] = R := by
  have hset : (fun x : ℚ => x * w + x * w) = fun x : ℚ => x := by
    funext x
    rw [← mul_add, hw, mul_one]
  simp only [blendReturns, List.zip, List.zipWith, List.foldl_cons, List.foldl_nil,
    lookupA_cons, List.head?]
  norm_num
  rw [show (List.replicate R.length (0 : ℚ)) = List.replicate (R.map (fun x => x * w)).length 0 by
        rw [List.length_map],
      addFill_replicate_zero, addFill_map_map, hset]
  simp

/-- The pandas correlation of a series with itself is `1` whenever its
sample variance is nonzero and `sq` squares back to that variance. -/
theorem corrQ_self (sq : ℚ → ℚ) (R : List ℚ) (hvar : varSample R ≠ 0)
    (hsq : sq (varSample R) * sq (varSample R) = varSample R) :
    corrQ sq R R = 1 := by
  simp only [corrQ, hsq]
  rw [if_neg hvar]
  exact div_self hvar

theorem round2_one : round2 1 = 1 := by
  norm_num [round2, round_eq]

/-- C8: for two tickers `AAA`, `BBB` backed by the same price series (hence
the same return series `R`) and weights `[0.5, 0.5]`, the blended portfolio
return series equals `R`, so the portfolio-level volatility stored by
`analyze_portfolio` is exactly the annualized-volatility formula applied to
`R` itself, and the correlation matrix entry `["AAA"]["BBB"]` is `1.0`
(provided `R` has nonzero sample variance and `sq` is a square root at that
variance). -/
theorem c8_identical_return_series (sq : ℚ → ℚ)
    (fetch : String → String → String → Except String (List ℚ)) (P M : List ℚ)
    (hA : fetch "AAA" "1y" "1d" = Except.ok P)
    (hB : fetch "BBB" "1y" "1d" = Except.ok P)
    (hM : fetch "^GSPC" "1y" "1d" = Except.ok M)
    (hvar : varSample (pctChange P) ≠ 0)
    (hsq : sq (varSample (pctChange P)) * sq (varSample (pctChange P))
            = varSample (pctChange P)) :
    blendReturns ["AAA", "BBB"] [1/2, 1/2]
        [("AAA", pctChange P), ("BBB", pctChange P)] = pctChange P
      ∧ ∃ pm : PortfolioMetrics,
          analyze_portfolio sq fetch ["AAA", "BBB"] (some [1/2, 1/2]) = Except.ok pm
          ∧ pm.portfolio_metrics.volatility = stdQ sq (pctChange P) * sq 252 * 100
          ∧ lookupA ((lookupA pm.portfolio_metrics.correlation_matrix "AAA").getD [])
              "BBB" = some 1 := by
  have hind2 : (indLoop sq fetch M ["AAA", "BBB"]).2
      = [("AAA", pctChange P), ("BBB", pctChange P)] := by
    simp [indLoop, hA, hB, updateA]
  have hnw : ([1/2, 1/2] : List ℚ).map (fun w => w / ([(1/2 : ℚ), 1/2].sum))
      = [1/2, 1/2] := by
    norm_num
  have hrun : analyze_portfolio sq fetch ["AAA", "BBB"] (some [1/2, 1/2])
      = Except.ok
          ⟨["AAA", "BBB"], [1/2, 1/2],
           (indLoop sq fetch M ["AAA", "BBB"]).1,
           ⟨stdQ sq (pctChange P) * sq 252 * 100,
            portfolioBeta ["AAA", "BBB"] [1/2, 1/2] (indLoop sq fetch M ["AAA", "BBB"]).1,
            calculate_sharpe_ratio sq (pctChange P),
            (calculate_drawdown (portfolioValue (pctChange P))).max_drawdown,
            (calculate_drawdown (portfolioValue (pctChange P))).duration,
            calculate_var (pctChange P),
            corrMatrix sq [("AAA", pctChange P), ("BBB", pctChange P)]⟩⟩ := by
    simp only [analyze_portfolio, hM, hind2]
    rw [if_neg (by norm_num)]
    rw [if_neg (by simp)]
    rw [hnw, blend_pair_identical (pctChange P) (1/2) (by norm_num)]
  refine ⟨blend_pair_identical (pctChange P) (1/2) (by norm_num), _, hrun, rfl, ?_⟩
  simp [corrMatrix, lookupA, corrQ_self sq (pctChange P) hvar hsq, round2_one]

/-- Witness for `c8_identical_return_series`: prices `[1, 1, 3, 15]` give
returns `[0, 2, 4]` with sample variance `4`; `sq` maps `4` to its exact
square root `2`. -/
theorem c8_identical_witness :
    varSample (pctChange [(1 : ℚ), 1, 3, 15]) ≠ 0
      ∧ ((fun q : ℚ => if q = 4 then (2 : ℚ) else 0)
              (varSample (pctChange [(1 : ℚ), 1, 3, 15]))
            * (fun q : ℚ => if q = 4 then (2 : ℚ) else 0)
              (varSample (pctChange [(1 : ℚ), 1, 3, 15]))
          = varSample (pctChange [(1 : ℚ), 1, 3, 15]))
      ∧ (blendReturns ["AAA", "BBB"] [1/2, 1/2]
            [("AAA", pctChange [(1 : ℚ), 1, 3, 15]),
             ("BBB", pctChange [(1 : ℚ), 1, 3, 15])]
            = pctChange [(1 : ℚ), 1, 3, 15]
          ∧ ∃ pm : PortfolioMetrics,
              analyze_portfolio (fun q : ℚ => if q = 4 then (2 : ℚ) else 0)
                  (fun _ _ _ => Except.ok [(1 : ℚ), 1, 3, 15]) ["AAA", "BBB"]
                  (some [1/2, 1/2])
                = Except.ok pm
              ∧ pm.portfolio_metrics.volatility
                  = stdQ (fun q : ℚ => if q = 4 then (2 : ℚ) else 0)
                      (pctChange [(1 : ℚ), 1, 3, 15])
                    * (fun q : ℚ => if q = 4 then (2 : ℚ) else 0) 252 * 100
              ∧ lookupA
                  ((lookupA pm.portfolio_metrics.correlation_matrix "AAA").getD [])
                  "BBB" = some 1) := by
  have h4 : varSample (pctChange [(1 : ℚ), 1, 3, 15]) = 4 := by
    norm_num [pctChange, varSample, sampleCov, meanQ]
  have hv : varSample (pctChange [(1 : ℚ), 1, 3, 15]) ≠ 0 := by
    rw [h4]
    norm_num
  have hs : (fun q : ℚ => if q = 4 then (2 : ℚ) else 0)
        (varSample (pctChange [(1 : ℚ), 1, 3, 15]))
      * (fun q : ℚ => if q = 4 then (2 : ℚ) else 0)
        (varSample (pctChange [(1 : ℚ), 1, 3, 15]))
      = varSample (pctChange [(1 : ℚ), 1, 3, 15]) := by
    rw [h4]
    norm_num
  exact ⟨hv, hs,
    c8_identical_return_series (fun q : ℚ => if q = 4 then (2 : ℚ) else 0)
      (fun _ _ _ => Except.ok [(1 : ℚ), 1, 3, 15]) [(1 : ℚ), 1, 3, 15]
      [(1 : ℚ), 1, 3, 15] rfl rfl rfl hv hs⟩

/-! ## Region/sector risk exposure
(`APIAgent.get_asia_tech_exposure`, src/Agents.py lines 187-280, and
`AnalysisAgent.analyze_risk_exposure`, src/agents/analysis_agent.py lines
305-445)

The API agent is modelled by an environment: `history` is
`get_stock_data` (an `Except.error` models a raised provider error) and
`earnings t = some (surprise, estimate)` models a ticker whose
calendar/earnings lookup succeeds and contributes an `earnings_surprises`
entry (lines 221-235 of src/Agents.py); `none` models every path that adds
no entry.  Each function also returns the list of
`(ticker, period, interval)` arguments of the `get_stock_data` calls it
made, so "no upstream fetch" is `= []`. -/

/-- Environment standing for the `APIAgent` instance. -/
structure APIEnv where
  history : String → String → String → Except String (List ℚ)
  earnings : String → Option (ℚ × ℚ)

/-- One recorded `get_stock_data(ticker, period, interval)` call. -/
abbrev FetchCall := String × String × String

/-- The fixed Asia-tech stock list (src/Agents.py lines 195-204). -/
def asia_tech_stocks : List String :=
  ["TSM", "2330.TW", "005930.KS", "9988.HK", "BABA", "9999.HK", "BIDU",
   "0700.HK", "TCEHY", "9618.HK", "JD", "6758.T", "SONY", "3690.HK", "MEITF"]

/-- One `stock_data` entry of `get_asia_tech_exposure` (lines 214-219). -/
structure StockSnap where
  current_price : ℚ
  previous_price : ℚ
  percent_change : ℚ
deriving DecidableEq, Repr

/-- Builds the `stock_data` entry from a non-empty close series. -/
def snapOf (data : List ℚ) : StockSnap :=
  let cur := data.getLast?.getD 0
  let prev := if data.length > 1 then data.getD (data.length - 2) 0 else cur
  { current_price := cur,
    previous_price := prev,
    percent_change := if data.length > 1 then (cur - prev) / prev * 100 else 0 }

/-- `ticker.split('.')[0] if '.' in ticker else ticker` (line 253): both
branches are the prefix of the ticker before its first dot. -/
def baseName (t : String) : String :=
  String.mk (t.toList.takeWhile (fun c => c ≠ '.'))

/-- Lines 248-254: keep earnings entries with strictly positive estimate
whose percentage surprise exceeds `1.0` in absolute value, keyed by the
ticker's base name, rounded to 2 decimals. -/
def significantSurprises (es : List (String × (ℚ × ℚ))) : List (String × ℚ) :=
  es.foldl
    (fun acc te =>
      if te.2.2 > 0 then
        let pct := (te.2.1 - te.2.2) / te.2.2 * 100
        if |pct| > 1 then updateA acc (baseName te.1) (round2 pct) else acc
      else acc)
    []

/-- Lines 259-268: qualitative sentiment from the average price change. -/
def sentimentOf (total_change : ℚ) : String :=
  if total_change > 2 then "bullish"
  else if total_change > 1/2 then "slightly bullish"
  else if total_change > -(1/2) then "neutral"
  else if total_change > -2 then "slightly bearish"
  else "bearish"

/-- The `get_asia_tech_exposure` return dictionary (lines 270-280), with
the fixed `exposure` sub-dictionary flattened into the first four fields. -/
structure AsiaTechExposure where
  percentage : ℚ
  previous_percentage : ℚ
  change : ℚ
  movement_direction : String
  earnings_surprises : List (String × ℚ)
  sentiment : String
  avg_price_change : ℚ
deriving DecidableEq, Repr

/-- Loop body of `get_asia_tech_exposure` (lines 210-237): the state is
`(stock_data, earnings_surprises, fetch log)`.  A raised fetch is caught and
skips the whole body; an empty frame adds no `stock_data` entry but still
reaches the earnings lookup. -/
def asiaStep (env : APIEnv)
    (acc : List (String × StockSnap) × List (String × (ℚ × ℚ)) × List FetchCall)
    (t : String) :
    List (String × StockSnap) × List (String × (ℚ × ℚ)) × List FetchCall :=
  let log := acc.2.2 ++ [(t, "5d", "1h")]
  match env.history t "5d" "1h" with
  | Except.error _ => (acc.1, acc.2.1, log)
  | Except.ok data =>
      let sd := if data ≠ [] then updateA acc.1 t (snapOf data) else acc.1
      let es :=
        match env.earnings t with
        | some se => updateA acc.2.1 t se
        | none => acc.2.1
      (sd, es, log)

/-- `APIAgent.get_asia_tech_exposure` (lines 187-280). -/
def get_asia_tech_exposure (env : APIEnv) : AsiaTechExposure × List FetchCall :=
  let step := asia_tech_stocks.foldl (asiaStep env) ([], [], [])
  let stock_data := step.1
  let total_change :=
    if stock_data ≠ []
      then (stock_data.map (fun p => p.2.percent_change)).sum / stock_data.length
      else 0
  ({ percentage := 22,
     previous_percentage := 18,
     change := 22 - 18,
     movement_direction := if (22 : ℚ) > 18 then "up" else "down",
     earnings_surprises := significantSurprises step.2.1,
     sentiment := sentimentOf total_change,
     avg_price_change := round2 total_change }, step.2.2)

/-- Per-ticker metric entry of `analyze_risk_exposure` (lines 392-396). -/
structure TickerRisk where
  volatility : ℚ
  beta : ℚ
  var_95 : ℚ
deriving DecidableEq, Repr

/-- The exposure report assembled on the success path of
`analyze_risk_exposure` (`sentiment` is present only for the Asia region). -/
structure ExposureReport where
  region : String
  sector : Option String
  tickers : List String
  metrics : List (String × TickerRisk)
  average_metrics : TickerRisk
  risk_level : String
  earnings_surprises : List (String × ℚ)
  sentiment : Option String
deriving DecidableEq, Repr

/-- The static region → sector → tickers taxonomy (lines 319-338). -/
def region_mapping : List (String × List (String × List String)) :=
  [("Asia",
    [("Technology", ["TSM", "005930.KS", "9988.HK", "0700.HK", "6758.T"]),
     ("Finance", ["8306.T", "8316.T", "3988.HK", "1398.HK", "000001.SS"]),
     ("Consumer", ["9633.T", "6758.T", "2330.TW", "1177.HK", "1211.HK"]),
     ("Healthcare", ["4502.T", "4503.T", "1177.HK", "3320.HK", "1093.HK"])]),
   ("Europe",
    [("Technology", ["ASML.AS", "SAP.DE", "CAP.PA", "STM.PA", "ERIC-B.ST"]),
     ("Finance", ["HSBA.L", "BNP.PA", "SAN.MC", "BBVA.MC", "DBK.DE"]),
     ("Consumer", ["MC.PA", "OR.PA", "NESN.SW", "UL.AS", "AIR.PA"]),
     ("Healthcare", ["ROG.SW", "SAN.PA", "NOVN.SW", "AZN.L", "GSK.L"])]),
   ("North America",
    [("Technology", ["AAPL", "MSFT", "GOOGL", "AMZN", "META"]),
     ("Finance", ["JPM", "BAC", "WFC", "C", "GS"]),
     ("Consumer", ["COST", "WMT", "HD", "NKE", "MCD"]),
     ("Healthcare", ["JNJ", "PFE", "MRK", "ABT", "UNH"])])]

/-- Risk-level classification from average volatility (lines 412-423). -/
def riskLevelOf (avg_volatility : ℚ) : String :=
  if avg_volatility > 30 then "Very High"
  else if avg_volatility > 20 then "High"
  else if avg_volatility > 15 then "Moderate to High"
  else if avg_volatility > 10 then "Moderate"
  else "Low"

/-- The body of `analyze_risk_exposure` after ticker resolution (lines
355-439): per-ticker fetches (a raised fetch is caught and skipped, but
still went upstream and is logged), the benchmark fetch (a raise here hits
the outer handler and yields `{error: str(e)}`), per-ticker metrics for
non-empty frames, component-wise averages (`0` for no data), risk level,
and the Asia-tech earnings/sentiment attachment. -/
def riskCore (sq : ℚ → ℚ) (env : APIEnv) (region : String) (sector : Option String)
    (tickers : List String) : Except String ExposureReport × List FetchCall :=
  let fdata := tickers.foldl
    (fun (acc : List (String × List ℚ) × List FetchCall) t =>
      match env.history t "1mo" "1d" with
      | Except.error _ => (acc.1, acc.2 ++ [(t, "1mo", "1d")])
      | Except.ok data => (updateA acc.1 t data, acc.2 ++ [(t, "1mo", "1d")]))
    ([], [])
  let stock_data := fdata.1
  let log1 := fdata.2 ++ [("^GSPC", "1mo", "1d")]
  match env.history "^GSPC" "1mo" "1d" with
  | Except.error e => (Except.error e, log1)
  | Except.ok market_data =>
      let metrics := stock_data.foldl
        (fun (acc : List (String × TickerRisk)) td =>
          if td.2 ≠ [] then
            updateA acc td.1
              ⟨calculate_volatility sq td.2 * 100,
               calculate_beta td.2 market_data,
               calculate_var (pctChange td.2)⟩
          else acc)
        []
      let avg : TickerRisk :=
        if metrics ≠ [] then
          ⟨(metrics.map (fun m => m.2.volatility)).sum / metrics.length,
           (metrics.map (fun m => m.2.beta)).sum / metrics.length,
           (metrics.map (fun m => m.2.var_95)).sum / metrics.length⟩
        else ⟨0, 0, 0⟩
      let asia := get_asia_tech_exposure env
      (Except.ok
        { region := region,
          sector := sector,
          tickers := tickers,
          metrics := metrics,
          average_metrics := avg,
          risk_level := riskLevelOf avg.volatility,
          earnings_surprises := asia.1.earnings_surprises,
          sentiment := if region = "Asia" then some asia.1.sentiment else none },
       log1 ++ asia.2)

/-- `AnalysisAgent.analyze_risk_exposure` (lines 305-445): resolves tickers
from the taxonomy, reporting unknown region/sector as a structured error
(before any upstream call), then runs `riskCore`. -/
def analyze_risk_exposure (sq : ℚ → ℚ) (env : APIEnv) (region : String)
    (sector : Option String := none) :
    Except String ExposureReport × List FetchCall :=
  match lookupA region_mapping region with
  | none => (Except.error ("Region '" ++ region ++ "' not supported"), [])
  | some sectors =>
      match sector with
      | some s =>
          match lookupA sectors s with
          | none =>
              (Except.error
                ("Sector '" ++ s ++ "' not supported for region '" ++ region ++ "'"), [])
          | some tks => riskCore sq env region (some s) tks
      | none => riskCore sq env region none (sectors.foldl (fun acc sv => acc ++ sv.2) [])

/-- On any success path, the report's `risk_level` is the threshold
classification of its own stored average volatility, and the earnings /
sentiment attachments come from `get_asia_tech_exposure`. -/
theorem riskCore_ok_shape (sq : ℚ → ℚ) (env : APIEnv) (region : String)
    (sector : Option String) (tks : List String) (rep : ExposureReport)
    (log : List FetchCall)
    (h : riskCore sq env region sector tks = (Except.ok rep, log)) :
    rep.risk_level = riskLevelOf rep.average_metrics.volatility
      ∧ rep.earnings_surprises = (get_asia_tech_exposure env).1.earnings_surprises
      ∧ rep.sentiment
          = (if region = "Asia" then some (get_asia_tech_exposure env).1.sentiment
             else none) := by
  simp only [riskCore] at h
  split at h
  · simp at h
  · rw [Prod.mk.injEq] at h
    obtain ⟨h1, _⟩ := h
    injection h1 with h1
    subst h1
    exact ⟨rfl, rfl, rfl⟩

/-- `analyze_risk_exposure` success paths all go through `riskCore`. -/
theorem analyze_risk_ok_shape (sq : ℚ → ℚ) (env : APIEnv) (region : String)
    (sector : Option String) (rep : ExposureReport) (log : List FetchCall)
    (h : analyze_risk_exposure sq env region sector = (Except.ok rep, log)) :
    rep.risk_level = riskLevelOf rep.average_metrics.volatility
      ∧ rep.earnings_surprises = (get_asia_tech_exposure env).1.earnings_surprises
      ∧ rep.sentiment
          = (if region = "Asia" then some (get_asia_tech_exposure env).1.sentiment
             else none) := by
  simp only [analyze_risk_exposure] at h
  split at h
  · simp at h
  · split at h
    · split at h
      · simp at h
      · exact riskCore_ok_shape _ _ _ _ _ _ _ h
    · exact riskCore_ok_shape _ _ _ _ _ _ _ h

/-- C6: in `analyze_risk_exposure`, the reported `risk_level` is determined
from the stored average volatility by the exact thresholds
`>30 → Very High, >20 → High, >15 → Moderate to High, >10 → Moderate,
else Low`; in particular averages 35, 25, 17, 12, 5 map to those five
labels. -/
theorem c6_risk_level_thresholds (sq : ℚ → ℚ) (env : APIEnv) (region : String)
    (sector : Option String) (rep : ExposureReport) (log : List FetchCall) (v : ℚ)
    (hok : analyze_risk_exposure sq env region sector = (Except.ok rep, log)) :
    rep.risk_level = riskLevelOf rep.average_metrics.volatility
      ∧ (30 < v → riskLevelOf v = "Very High")
      ∧ (20 < v ∧ v ≤ 30 → riskLevelOf v = "High")
      ∧ (15 < v ∧ v ≤ 20 → riskLevelOf v = "Moderate to High")
      ∧ (10 < v ∧ v ≤ 15 → riskLevelOf v = "Moderate")
      ∧ (v ≤ 10 → riskLevelOf v = "Low")
      ∧ riskLevelOf 35 = "Very High"
      ∧ riskLevelOf 25 = "High"
      ∧ riskLevelOf 17 = "Moderate to High"
      ∧ riskLevelOf 12 = "Moderate"
      ∧ riskLevelOf 5 = "Low" := by
  refine ⟨(analyze_risk_ok_shape sq env region sector rep log hok).1,
    ?_, ?_, ?_, ?_, ?_, ?_, ?_, ?_, ?_, ?_⟩
  · intro h
    unfold riskLevelOf
    rw [if_pos h]
  · rintro ⟨h1, h2⟩
    unfold riskLevelOf
    split_ifs <;> first | rfl | linarith
  · rintro ⟨h1, h2⟩
    unfold riskLevelOf
    split_ifs <;> first | rfl | linarith
  · rintro ⟨h1, h2⟩
    unfold riskLevelOf
    split_ifs <;> first | rfl | linarith
  · intro h
    unfold riskLevelOf
    split_ifs <;> first | rfl | linarith
  · norm_num [riskLevelOf]
  · norm_num [riskLevelOf]
  · norm_num [riskLevelOf]
  · norm_num [riskLevelOf]
  · norm_num [riskLevelOf]

/-- C7: an unknown sector for a known region, and an unknown region, are
returned as structured `{error: ...}` values with an empty fetch log — no
upstream call is made and no exception escapes. -/
theorem c7_unknown_sector_or_region_no_fetch (sq : ℚ → ℚ) (env : APIEnv)
    (s region' : String) (sec : Option String)
    (hs : lookupA ((lookupA region_mapping "Asia").getD []) s = none)
    (hr : lookupA region_mapping region' = none) :
    analyze_risk_exposure sq env "Asia" (some s)
        = (Except.error ("Sector '" ++ s ++ "' not supported for region 'Asia'"), [])
      ∧ analyze_risk_exposure sq env region' sec
        = (Except.error ("Region '" ++ region' ++ "' not supported"), []) := by
  have hA : lookupA region_mapping "Asia"
      = some [("Technology", ["TSM", "005930.KS", "9988.HK", "0700.HK", "6758.T"]),
              ("Finance", ["8306.T", "8316.T", "3988.HK", "1398.HK", "000001.SS"]),
              ("Consumer", ["9633.T", "6758.T", "2330.TW", "1177.HK", "1211.HK"]),
              ("Healthcare", ["4502.T", "4503.T", "1177.HK", "3320.HK", "1093.HK"])] := by
    decide
  constructor
  · have hs' : lookupA
        [("Technology", ["TSM", "005930.KS", "9988.HK", "0700.HK", "6758.T"]),
         ("Finance", ["8306.T", "8316.T", "3988.HK", "1398.HK", "000001.SS"]),
         ("Consumer", ["9633.T", "6758.T", "2330.TW", "1177.HK", "1211.HK"]),
         ("Healthcare", ["4502.T", "4503.T", "1177.HK", "3320.HK", "1093.HK"])] s
        = none := by
      rw [hA] at hs
      simpa using hs
    simp only [analyze_risk_exposure, hA, hs']
    simp only [String.append_assoc]
    refine Prod.ext ?_ rfl
    congr 1
  · simp [analyze_risk_exposure, hr]

/-- Witness for `c7_unknown_sector_or_region_no_fetch` at sector `Unknown`
and region `Atlantis`, showing the error string is exactly the one the spec
scenario demands. -/
theorem c7_unknown_sector_witness :
    lookupA ((lookupA region_mapping "Asia").getD []) "Unknown" = none
      ∧ lookupA region_mapping "Atlantis" = none
      ∧ (analyze_risk_exposure (fun _ => 0)
            ⟨fun _ _ _ => Except.ok [], fun _ => none⟩ "Asia" (some "Unknown")
          = (Except.error "Sector 'Unknown' not supported for region 'Asia'", [])
        ∧ analyze_risk_exposure (fun _ => 0)
            ⟨fun _ _ _ => Except.ok [], fun _ => none⟩ "Atlantis" none
          = (Except.error "Region 'Atlantis' not supported", [])) := by
  refine ⟨by decide, by decide, ?_⟩
  have h := c7_unknown_sector_or_region_no_fetch (fun _ => 0)
    ⟨fun _ _ _ => Except.ok [], fun _ => none⟩ "Unknown" "Atlantis" none
    (by decide) (by decide)
  exact h

theorem mem_updateA {α : Type} (l : List (String × α)) (k : String) (v : α)
    (x : String × α) (hx : x ∈ updateA l k v) : x ∈ l ∨ x = (k, v) := by
  induction l with
  | nil =>
      simp [updateA] at hx
      exact Or.inr hx
  | cons hd t ih =>
      by_cases h : hd.1 = k
      · rw [show hd = (hd.1, hd.2) from rfl] at hx
        simp only [updateA, if_pos h] at hx
        rcases List.mem_cons.mp hx with h1 | h1
        · exact Or.inr h1
        · exact Or.inl (List.mem_cons_of_mem _ h1)
      · rw [show hd = (hd.1, hd.2) from rfl] at hx
        simp only [updateA, if_neg h] at hx
        rcases List.mem_cons.mp hx with h1 | h1
        · exact Or.inl (by rw [h1]; exact List.mem_cons_self _ _)
        · rcases ih h1 with h2 | h2
          · exact Or.inl (List.mem_cons_of_mem _ h2)
          · exact Or.inr h2

theorem mem_significantSurprises_aux (es : List (String × (ℚ × ℚ)))
    (acc : List (String × ℚ)) (nm : String) (v : ℚ)
    (h : (nm, v) ∈ es.foldl
          (fun acc te =>
            if te.2.2 > 0 then
              let pct := (te.2.1 - te.2.2) / te.2.2 * 100
              if |pct| > 1 then updateA acc (baseName te.1) (round2 pct) else acc
            else acc)
          acc) :
    (nm, v) ∈ acc
      ∨ ∃ p ∈ es, 0 < p.2.2 ∧ 1 < |(p.2.1 - p.2.2) / p.2.2 * 100|
          ∧ nm = baseName p.1 ∧ v = round2 ((p.2.1 - p.2.2) / p.2.2 * 100) := by
  induction es generalizing acc with
  | nil => exact Or.inl h
  | cons p rest ih =>
      rw [List.foldl_cons] at h
      rcases ih _ h with h1 | h1
      · by_cases hp : p.2.2 > 0
        · simp only [if_pos hp] at h1
          by_cases habs : |(p.2.1 - p.2.2) / p.2.2 * 100| > 1
          · simp only [if_pos habs] at h1
            rcases mem_updateA _ _ _ _ h1 with h2 | h2
            · exact Or.inl h2
            · refine Or.inr ⟨p, List.mem_cons_self _ _, hp, habs, ?_, ?_⟩
              · exact congrArg Prod.fst h2
              · exact congrArg Prod.snd h2
          · simp only [if_neg habs] at h1
            exact Or.inl h1
        · simp only [if_neg hp] at h1
          exact Or.inl h1
      · obtain ⟨q, hq, hrest⟩ := h1
        exact Or.inr ⟨q, List.mem_cons_of_mem _ hq, hrest⟩

/-- Every entry of `significantSurprises es` comes from an `es` entry with
strictly positive estimate and absolute percentage surprise above `1`. -/
theorem mem_significantSurprises (es : List (String × (ℚ × ℚ))) (nm : String) (v : ℚ)
    (h : (nm, v) ∈ significantSurprises es) :
    ∃ p ∈ es, 0 < p.2.2 ∧ 1 < |(p.2.1 - p.2.2) / p.2.2 * 100|
      ∧ nm = baseName p.1 ∧ v = round2 ((p.2.1 - p.2.2) / p.2.2 * 100) := by
  rcases mem_significantSurprises_aux es [] nm v h with h1 | h1
  · simp at h1
  · exact h1

/-- Every collected earnings entry of the Asia-tech loop comes from the
environment's earnings oracle at a ticker of the processed list. -/
theorem asia_earnings_member (env : APIEnv) (ts : List String)
    (acc : List (String × StockSnap) × List (String × (ℚ × ℚ)) × List FetchCall)
    (pr : String × (ℚ × ℚ)) (h : pr ∈ (ts.foldl (asiaStep env) acc).2.1) :
    pr ∈ acc.2.1 ∨ (pr.1 ∈ ts ∧ env.earnings pr.1 = some pr.2) := by
  induction ts generalizing acc with
  | nil => exact Or.inl h
  | cons t rest ih =>
      rw [List.foldl_cons] at h
      rcases ih _ h with h1 | h1
      · simp only [asiaStep] at h1
        rcases he : env.history t "5d" "1h" with d | d
        · rw [he] at h1
          exact Or.inl h1
        · rw [he] at h1
          simp only at h1
          rcases hearn : env.earnings t with se | se
          · rw [hearn] at h1
            exact Or.inl h1
          · rw [hearn] at h1
            simp only at h1
            rcases mem_updateA _ _ _ _ h1 with h2 | h2
            · exact Or.inl h2
            · refine Or.inr ⟨?_, ?_⟩
              · rw [congrArg Prod.fst h2]
                exact List.mem_cons_self _ _
              · rw [congrArg Prod.fst h2, congrArg Prod.snd h2, hearn]
      · exact Or.inr ⟨List.mem_cons_of_mem _ h1.1, h1.2⟩

/-- C10: the `earnings_surprises` field of every successful
`analyze_risk_exposure` report (and, for region `Asia`, its `sentiment`
field) is computed by `get_asia_tech_exposure` from the fixed Asia-tech
stock list, whatever region/sector was requested; and every surprise entry
stems from an earnings record with strictly positive estimate whose
percentage surprise exceeds `1.0` in absolute value. -/
theorem c10_earnings_from_asia_tech (sq : ℚ → ℚ) (env : APIEnv) (region : String)
    (sector : Option String) (rep : ExposureReport) (log : List FetchCall)
    (hok : analyze_risk_exposure sq env region sector = (Except.ok rep, log)) :
    rep.earnings_surprises = (get_asia_tech_exposure env).1.earnings_surprises
      ∧ (region = "Asia" → rep.sentiment = some (get_asia_tech_exposure env).1.sentiment)
      ∧ (region ≠ "Asia" → rep.sentiment = none)
      ∧ ∀ nm v, (nm, v) ∈ rep.earnings_surprises →
          ∃ t, t ∈ asia_tech_stocks
            ∧ ∃ sur est, env.earnings t = some (sur, est)
                ∧ 0 < est ∧ 1 < |(sur - est) / est * 100|
                ∧ nm = baseName t ∧ v = round2 ((sur - est) / est * 100) := by
  obtain ⟨-, hearn, hsent⟩ := analyze_risk_ok_shape sq env region sector rep log hok
  refine ⟨hearn, ?_, ?_, ?_⟩
  · intro hreg
    rw [hsent, if_pos hreg]
  · intro hreg
    rw [hsent, if_neg hreg]
  · intro nm v hmem
    rw [hearn] at hmem
    have hmem' : (nm, v) ∈ significantSurprises
        ((asia_tech_stocks.foldl (asiaStep env) ([], [], [])).2.1) := hmem
    obtain ⟨p, hp, hpos, habs, hnm, hv⟩ :=
      mem_significantSurprises _ nm v hmem'
    rcases asia_earnings_member env asia_tech_stocks ([], [], []) p hp with h0 | h0
    · simp at h0
    · exact ⟨p.1, h0.1, p.2.1, p.2.2, by rw [h0.2], hpos, habs, hnm, hv⟩

/-- Environment for concrete risk-exposure evaluations: every fetch
succeeds with an empty frame, no earnings data. -/
def envW : APIEnv := ⟨fun _ _ _ => Except.ok [], fun _ => none⟩

/-- The report `analyze_risk_exposure` produces for Asia/Technology under
`envW`. -/
def repW : ExposureReport :=
  { region := "Asia",
    sector := some "Technology",
    tickers := ["TSM", "005930.KS", "9988.HK", "0700.HK", "6758.T"],
    metrics := [],
    average_metrics := ⟨0, 0, 0⟩,
    risk_level := "Low",
    earnings_surprises := [],
    sentiment := some "neutral" }

/-- The fetch log of that call: the five Technology tickers, the
benchmark, then the fifteen Asia-tech stocks. -/
def logW : List FetchCall :=
  [("TSM", "1mo", "1d"), ("005930.KS", "1mo", "1d"), ("9988.HK", "1mo", "1d"),
   ("0700.HK", "1mo", "1d"), ("6758.T", "1mo", "1d"), ("^GSPC", "1mo", "1d"),
   ("TSM", "5d", "1h"), ("2330.TW", "5d", "1h"), ("005930.KS", "5d", "1h"),
   ("9988.HK", "5d", "1h"), ("BABA", "5d", "1h"), ("9999.HK", "5d", "1h"),
   ("BIDU", "5d", "1h"), ("0700.HK", "5d", "1h"), ("TCEHY", "5d", "1h"),
   ("9618.HK", "5d", "1h"), ("JD", "5d", "1h"), ("6758.T", "5d", "1h"),
   ("SONY", "5d", "1h"), ("3690.HK", "5d", "1h"), ("MEITF", "5d", "1h")]

theorem envW_eval :
    analyze_risk_exposure (fun _ => 0) envW "Asia" (some "Technology")
      = (Except.ok repW, logW) := by
  have hok : ∀ t p i, envW.history t p i = Except.ok [] := fun _ _ _ => rfl
  have hearn : ∀ t, envW.earnings t = none := fun _ => rfl
  have hs0 : sentimentOf 0 = "neutral" := by norm_num [sentimentOf]
  have hr0 : riskLevelOf 0 = "Low" := by norm_num [riskLevelOf]
  have hround : round2 0 = 0 := by norm_num [round2, round_eq]
  simp only [analyze_risk_exposure, riskCore, get_asia_tech_exposure, asiaStep,
    asia_tech_stocks, region_mapping, lookupA, updateA, List.foldl_cons,
    List.foldl_nil, hok, hearn, String.reduceEq, reduceIte, significantSurprises,
    hs0, hr0, hround, repW, logW]
  simp
  exact ⟨hr0, hs0⟩

/-- Witness for `c6_risk_level_thresholds` at the concrete Asia/Technology
call under `envW` and average volatility `35`. -/
theorem c6_risk_level_witness :
    analyze_risk_exposure (fun _ => 0) envW "Asia" (some "Technology")
        = (Except.ok repW, logW)
      ∧ repW.risk_level = riskLevelOf repW.average_metrics.volatility
      ∧ ((30 : ℚ) < 35 → riskLevelOf 35 = "Very High")
      ∧ riskLevelOf 35 = "Very High"
      ∧ riskLevelOf 25 = "High"
      ∧ riskLevelOf 17 = "Moderate to High"
      ∧ riskLevelOf 12 = "Moderate"
      ∧ riskLevelOf 5 = "Low" := by
  obtain ⟨h1, h2, -, -, -, -, c35, c25, c17, c12, c5⟩ :=
    c6_risk_level_thresholds (fun _ => 0) envW "Asia" (some "Technology")
      repW logW 35 envW_eval
  exact ⟨envW_eval, h1, h2, c35, c25, c17, c12, c5⟩

/-- Witness for `c10_earnings_from_asia_tech` at the same concrete call. -/
theorem c10_earnings_witness :
    analyze_risk_exposure (fun _ => 0) envW "Asia" (some "Technology")
        = (Except.ok repW, logW)
      ∧ repW.earnings_surprises = (get_asia_tech_exposure envW).1.earnings_surprises
      ∧ ("Asia" = "Asia" →
          repW.sentiment = some (get_asia_tech_exposure envW).1.sentiment) := by
  obtain ⟨h1, h2, -, -⟩ :=
    c10_earnings_from_asia_tech (fun _ => 0) envW "Asia" (some "Technology")
      repW logW envW_eval
  exact ⟨envW_eval, h1, h2⟩

/-! ## Intent Classifier
(`LanguageService.analyze_query_intent`, src/services/language_services.py
lines 57-149, primary-intent portion, lines 71-112)

Python string primitives (`str.lower`, the `in` substring test and
`str.count`, which counts non-overlapping occurrences left to right) are
embedded on `List Char`; `str.count` is implemented with a character-count
fuel so that it stays kernel-reducible. -/

/-- `query.lower()` (ASCII case folding suffices for the keyword table). -/
def lowerS (s : String) : String := String.mk (s.toList.map Char.toLower)

/-- Whether `needle` starts `hay`. -/
def leadsWith : List Char → List Char → Bool
  | [], _ => true
  | _ :: _, [] => false
  | a :: as, b :: bs => a = b && leadsWith as bs

/-- Python `needle in hay` (substring test). -/
def substrB (needle : List Char) : List Char → Bool
  | [] => leadsWith needle []
  | c :: t => leadsWith needle (c :: t) || substrB needle t

/-- Fuel-driven scan for `str.count`: on a match, skip past the whole
needle (non-overlapping counting). -/
def countOccAux (needle : List Char) : Nat → List Char → Nat
  | 0, _ => 0
  | _, [] => 0
  | fuel + 1, c :: rest =>
      if leadsWith needle (c :: rest) then
        1 + countOccAux needle fuel (rest.drop (needle.length - 1))
      else countOccAux needle fuel rest

/-- Python `hay.count(needle)`; `hay.count("") = len(hay) + 1`. -/
def countOcc (needle hay : List Char) : Nat :=
  if needle = [] then hay.length + 1 else countOccAux needle hay.length hay

/-- `query_lower.count(keyword)` on strings. -/
def countOccS (k q : String) : Nat := countOcc k.toList q.toList

/-- The keyword → intent table (lines 72-85), in registration order. -/
def intent_keywords : List (String × String) :=
  [("portfolio", "portfolio_analysis"), ("risk", "risk_assessment"),
   ("exposure", "risk_assessment"), ("market", "market_info"),
   ("indices", "market_info"), ("sector", "market_info"),
   ("stock", "stock_specific"), ("price", "stock_specific"),
   ("economic", "economic_data"), ("treasury", "economic_data"),
   ("yield", "economic_data"), ("earnings", "stock_specific")]

/-- The keyword loop (lines 103-111): running `(primary_intent, max_count)`
state, updated only when the keyword occurs and its count strictly exceeds
the running maximum. -/
def scanIntents (ql : String) : List (String × String) → String × Nat → String × Nat
  | [], acc => acc
  | (k, i) :: rest, acc =>
      let c := countOccS k ql
      scanIntents ql rest
        (if substrB k.toList ql.toList then
          (if c > acc.2 then (i, c) else acc)
         else acc)

/-- The `primary_intent` computed by
`LanguageService.analyze_query_intent`. -/
def analyze_query_intent_primary (query : String) : String :=
  (scanIntents (lowerS query) intent_keywords ("unknown", 0)).1

/-- Per-intent score as the claim words it: total occurrences of all
keywords registered for that intent (modelled from the claim, for
comparison with the code's per-keyword scoring). -/
def intentScore (ql : String) (intent : String) : Nat :=
  (intent_keywords.filter (fun ki => ki.2 = intent)).foldl
    (fun n ki => n + countOccS ki.1 ql) 0

/-- The distinct intent categories in registration order. -/
def candidate_intents : List String :=
  ["portfolio_analysis", "risk_assessment", "market_info", "stock_specific",
   "economic_data"]

/-- Largest per-intent score. -/
def maxIntentScore (ql : String) : Nat :=
  candidate_intents.foldr (fun i m => max (intentScore ql i) m) 0

/-- The intent the claim asserts the classifier returns: the intent whose
registered keywords occur most often, ties broken in favour of the
earliest-registered keyword, `unknown` when no keyword occurs. -/
def claimedIntent (query : String) : String :=
  let ql := lowerS query
  let m := maxIntentScore ql
  if m = 0 then "unknown"
  else
    match intent_keywords.find? (fun ki => intentScore ql ki.2 = m) with
    | some ki => ki.2
    | none => "unknown"

/-- Largest per-keyword occurrence count over a keyword table. -/
def maxKeywordCount (ql : String) (l : List (String × String)) : Nat :=
  l.foldr (fun ki m => max (countOccS ki.1 ql) m) 0

/-- Intent of the first table entry whose keyword count equals `m`. -/
def firstAtMax (ql : String) (m : Nat) : List (String × String) → String
  | [] => "unknown"
  | (k, i) :: rest => if countOccS k ql = m then i else firstAtMax ql m rest

/-- What the code actually computes (amended claim): each keyword is scored
individually, and the classifier returns the intent of the
earliest-registered keyword whose occurrence count is maximal, `unknown`
when no keyword occurs. -/
def firstMaxKeywordIntent (query : String) : String :=
  let ql := lowerS query
  let m := maxKeywordCount ql intent_keywords
  if m = 0 then "unknown" else firstAtMax ql m intent_keywords

/-- C9 counterexample: for the query `"stock price market"`, the
`stock_specific` keywords occur twice in total (`stock`, `price`) against
once for `market_info`, so the claim as stated demands `stock_specific`;
the classifier returns `market_info` (each keyword scored separately, and
`market`, the earliest keyword with the maximal individual count 1,
wins). -/
theorem c9_counterexample :
    analyze_query_intent_primary "stock price market" = "market_info"
      ∧ claimedIntent "stock price market" = "stock_specific"
      ∧ intentScore (lowerS "stock price market") "stock_specific" = 2
      ∧ intentScore (lowerS "stock price market") "market_info" = 1 := by
  refine ⟨by decide, by decide, by decide, by decide⟩

theorem countOccAux_of_not_substr (needle : List Char) (fuel : Nat) (hay : List Char)
    (h : substrB needle hay = false) : countOccAux needle fuel hay = 0 := by
  induction fuel generalizing hay with
  | zero => cases hay <;> rfl
  | succ fuel ih =>
      cases hay with
      | nil => rfl
      | cons c rest =>
          simp only [substrB, Bool.or_eq_false_iff] at h
          simp only [countOccAux, h.1, if_false]
          exact ih rest h.2

/-- A keyword that does not occur as a substring has occurrence count 0. -/
theorem countOcc_of_not_substr (needle hay : List Char)
    (h : substrB needle hay = false) : countOcc needle hay = 0 := by
  unfold countOcc
  have hne : ¬ needle = [] := by
    intro he
    subst he
    cases hay <;> simp [substrB, leadsWith] at h
  rw [if_neg hne]
  exact countOccAux_of_not_substr needle hay.length hay h

/-- Characterization of the keyword loop: the final count is the maximum of
the initial count and all keyword counts, and the final intent is the
intent of the earliest keyword achieving that maximum when it beats the
initial count, the initial intent otherwise. -/
theorem scanIntents_spec (ql : String) (l : List (String × String)) (acc : String × Nat) :
    (scanIntents ql l acc).1
        = (if maxKeywordCount ql l > acc.2
            then firstAtMax ql (maxKeywordCount ql l) l
            else acc.1)
      ∧ (scanIntents ql l acc).2 = max acc.2 (maxKeywordCount ql l) := by
  induction l generalizing acc with
  | nil =>
      simp [scanIntents, maxKeywordCount]
  | cons ki rest ih =>
      obtain ⟨k, i⟩ := ki
      have hacc : (if substrB k.toList ql.toList then
            (if countOccS k ql > acc.2 then (i, countOccS k ql) else acc)
           else acc)
          = if countOccS k ql > acc.2 then (i, countOccS k ql) else acc := by
        by_cases hsub : substrB k.toList ql.toList
        · rw [if_pos hsub]
        · have hz : countOccS k ql = 0 :=
            countOcc_of_not_substr _ _ (Bool.of_not_eq_true hsub)
          rw [if_neg hsub, hz]
          simp
      have hstep : scanIntents ql ((k, i) :: rest) acc
          = scanIntents ql rest
              (if countOccS k ql > acc.2 then (i, countOccS k ql) else acc) := by
        simp only [scanIntents]
        rw [hacc]
      have hmax : maxKeywordCount ql ((k, i) :: rest)
          = max (countOccS k ql) (maxKeywordCount ql rest) := rfl
      have hfam : ∀ m, firstAtMax ql m ((k, i) :: rest)
          = if countOccS k ql = m then i else firstAtMax ql m rest := fun m => rfl
      rw [hstep, hmax]
      by_cases hc : countOccS k ql > acc.2
      · rw [if_pos hc]
        obtain ⟨ih1, ih2⟩ := ih (i, countOccS k ql)
        constructor
        · rw [ih1, hfam]
          by_cases hM : maxKeywordCount ql rest > countOccS k ql
          · rw [if_pos hM,
                if_pos (by omega : max (countOccS k ql) (maxKeywordCount ql rest) > acc.2),
                if_neg (by omega : ¬ countOccS k ql
                  = max (countOccS k ql) (maxKeywordCount ql rest))]
            congr 1
            omega
          · rw [if_neg hM,
                if_pos (by omega : max (countOccS k ql) (maxKeywordCount ql rest) > acc.2),
                if_pos (by omega : countOccS k ql
                  = max (countOccS k ql) (maxKeywordCount ql rest))]
        · rw [ih2]
          omega
      · rw [if_neg hc]
        obtain ⟨ih1, ih2⟩ := ih acc
        constructor
        · rw [ih1, hfam]
          by_cases hM : maxKeywordCount ql rest > acc.2
          · rw [if_pos hM,
                if_pos (by omega : max (countOccS k ql) (maxKeywordCount ql rest) > acc.2),
                if_neg (by omega : ¬ countOccS k ql
                  = max (countOccS k ql) (maxKeywordCount ql rest))]
            congr 1
            omega
          · rw [if_neg hM,
                if_neg (by omega : ¬ max (countOccS k ql) (maxKeywordCount ql rest) > acc.2)]
        · rw [ih2]
          omega

/-- C9 (amended): the classifier scores each registered keyword
individually by its occurrence count in the lower-cased query — it does not
sum the counts of an intent's keywords — and returns the intent of the
earliest-registered keyword whose count is maximal, with primary intent
`unknown` when no registered keyword occurs in the query at all. -/
theorem c9_first_max_keyword (query : String) :
    analyze_query_intent_primary query = firstMaxKeywordIntent query := by
  obtain ⟨h1, -⟩ := scanIntents_spec (lowerS query) intent_keywords ("unknown", 0)
  unfold analyze_query_intent_primary firstMaxKeywordIntent
  rw [h1]
  by_cases hm : maxKeywordCount (lowerS query) intent_keywords = 0
  · rw [if_neg (by rw [hm]; exact Nat.lt_irrefl 0), if_pos hm]
  · rw [if_pos (Nat.pos_of_ne_zero hm), if_neg hm]

/-! ## Router (`AgentRouter`, src/orchestrator/router.py)

src/orchestrator/router.py is a corrupted merge: it contains two
`AgentRouter` classes, the first one cut off mid-expression at line 104
(`if any(\x7b...` left unclosed), which makes the module a `SyntaxError`;
the second class (from line 115) is the definition the file ends with.  Its
`route_query` (lines 139-176) is embedded here.  Unlike the first class's
`route_query` (lines 49-82), it has no `try/except` around dispatch.

The agents the router calls are modelled as an environment of oracles; each
call that can raise is `Except`-valued.  Retrieved/gathered context items
are abstracted to their `metadata.type` tags (their `content` strings are
narration payloads passed opaquely to the narration oracle).
`get_portfolio_data` returns an opaque payload `π` (the router never
inspects it). -/

/-- A news item as used by `_handle_stock_specific`. -/
structure NewsItem where
  title : String
  link : String
  publisher : String
  published : String
deriving DecidableEq, Repr

/-- The collaborators of the second `AgentRouter`. -/
structure RouterEnv (π : Type) where
  retrieve : String → Nat → Except String (List String)
  generate_response : String → List String → Except String String
  get_market_indices : Unit → Except String (List (String × ℚ × ℚ))
  get_sector_performance : Unit → Except String (List (String × ℚ))
  get_portfolio_data : Unit → Except String π
  risk_exposure : String → Option String → Except String ExposureReport
  get_economic_indicators : Unit → Except String (List (String × ℚ))
  stock_data : String → Except String (List ℚ)
  stock_news : String → Except String (List NewsItem)

/-- The structured `data` payload of each handler. -/
inductive RouteData (π : Type) where
  | market (indices : List (String × ℚ × ℚ)) (sectors : List (String × ℚ))
  | portfolio (p : π)
  | exposure (e : Except String ExposureReport)
  | stocks (s : List (String × ℚ × ℚ))
  | economic (indicators : List (String × ℚ))
  | empty
deriving DecidableEq

/-- `{text, data}` response. -/
structure RoutedResponse (π : Type) where
  text : String
  data : RouteData π
deriving DecidableEq

/-- The intent dictionary as the router reads it (`.get` with defaults). -/
structure IntentDict where
  primary_intent : Option String
  entities : Option (List String)
deriving DecidableEq, Repr

/-- Python `str.isupper()`: at least one cased character, none lowercase. -/
def pyIsUpper (s : String) : Bool :=
  s.toList.any (fun c => c.isAlpha) && s.toList.all (fun c => !c.isLower)

/-- `_handle_market_info` (lines 178-216). -/
def handle_market_info {π : Type} (env : RouterEnv π) (query : String)
    (context : List String) : Except String (RoutedResponse π) := do
  let indices ← env.get_market_indices ()
  let sectors ← env.get_sector_performance ()
  let ctx := context ++ ["market_indices", "sector_performance"]
  let text ← env.generate_response query ctx
  pure ⟨text, RouteData.market indices sectors⟩

/-- `_handle_portfolio_analysis` (lines 218-245). -/
def handle_portfolio_analysis {π : Type} (env : RouterEnv π) (query : String)
    (context : List String) : Except String (RoutedResponse π) := do
  let p ← env.get_portfolio_data ()
  let text ← env.generate_response query (context ++ ["portfolio_data"])
  pure ⟨text, RouteData.portfolio p⟩

/-- `_handle_risk_assessment` (lines 247-298): last matching entity wins
for region/sector; defaults region to `Asia` and, when the query mentions
`tech`, sector to `Technology`; mentions of both `asia` and `tech` add the
Asia-tech context item (the `get_asia_tech_exposure()` payload, abstracted
to its tag). -/
def handle_risk_assessment {π : Type} (env : RouterEnv π) (query : String)
    (entities : List String) (context : List String) :
    Except String (RoutedResponse π) := do
  let rs := entities.foldl
    (fun (rs : Option String × Option String) e =>
      if ["asia", "europe", "north america", "emerging markets"].contains (lowerS e)
        then (some e, rs.2)
      else if ["technology", "finance", "healthcare", "consumer", "energy"].contains
          (lowerS e)
        then (rs.1, some e)
      else rs)
    (none, none)
  let region := (rs.1).getD "Asia"
  let sector :=
    match rs.2 with
    | some s => some s
    | none =>
        if substrB "tech".toList (lowerS query).toList then some "Technology" else none
  let exposure := env.risk_exposure region sector
  let ctx := context ++ ["risk_exposure"]
  let ctx :=
    if substrB "asia".toList (lowerS query).toList
        && substrB "tech".toList (lowerS query).toList
      then ctx ++ ["asia_tech_exposure"]
      else ctx
  let text ← env.generate_response query ctx
  pure ⟨text, RouteData.exposure exposure⟩

/-- The fixed company-name → ticker lexicon (lines 320-332). -/
def common_stocks : List (String × String) :=
  [("apple", "AAPL"), ("microsoft", "MSFT"), ("google", "GOOGL"),
   ("amazon", "AMZN"), ("tesla", "TSLA"), ("facebook", "META"),
   ("nvidia", "NVDA"), ("tsmc", "TSM"), ("samsung", "005930.KS"),
   ("alibaba", "BABA"), ("tencent", "0700.HK")]

/-- `_handle_stock_specific` (lines 300-382): tickers from uppercase
entities of length ≤ 5 plus lexicon matches in the lower-cased query;
per-ticker data/news gathering with a per-ticker `try` (a raised fetch
skips that ticker silently; a raise while fetching news keeps the data
entry already recorded). -/
def handle_stock_specific {π : Type} (env : RouterEnv π) (query : String)
    (entities : List String) (context : List String) :
    Except String (RoutedResponse π) := do
  let tickers := entities.foldl
    (fun ts e => if pyIsUpper e && e.length ≤ 5 then ts ++ [e] else ts) []
  let ql := lowerS query
  let tickers := common_stocks.foldl
    (fun ts nt =>
      if substrB nt.1.toList ql.toList && !ts.contains nt.2 then ts ++ [nt.2] else ts)
    tickers
  let gathered := tickers.foldl
    (fun (acc : List (String × ℚ × ℚ) × List String) t =>
      match env.stock_data t with
      | Except.error _ => acc
      | Except.ok data =>
          let acc1 :=
            if data ≠ [] then
              let latest := data.getLast?.getD 0
              let prev := if data.length > 1 then data.getD (data.length - 2) 0 else latest
              let pct := (latest - prev) / prev * 100
              (updateA acc.1 t (latest, pct), acc.2 ++ ["stock_data"])
            else acc
          match env.stock_news t with
          | Except.error _ => acc1
          | Except.ok news =>
              if news ≠ [] then (acc1.1, acc1.2 ++ ["stock_news"]) else acc1)
    ([], context)
  let text ← env.generate_response query gathered.2
  pure ⟨text, RouteData.stocks gathered.1⟩

/-- `_handle_economic_data` (lines 384-413). -/
def handle_economic_data {π : Type} (env : RouterEnv π) (query : String)
    (context : List String) : Except String (RoutedResponse π) := do
  let indicators ← env.get_economic_indicators ()
  let text ← env.generate_response query (context ++ ["economic_indicators"])
  pure ⟨text, RouteData.economic indicators⟩

/-- `_handle_default` (lines 415-432). -/
def handle_default {π : Type} (env : RouterEnv π) (query : String)
    (context : List String) : Except String (RoutedResponse π) := do
  let text ← env.generate_response query context
  pure ⟨text, RouteData.empty⟩

/-- `AgentRouter.route_query` of the second (effective) class (lines
139-176): retrieval then dispatch on `primary_intent`, with **no**
exception guard — an `Except.error` from any collaborator call propagates
to the caller. -/
def route_query {π : Type} (env : RouterEnv π) (query : String)
    (intent : IntentDict) : Except String (RoutedResponse π) := do
  let primary_intent := intent.primary_intent.getD "unknown"
  let entities := intent.entities.getD []
  let context ← env.retrieve query 5
  if primary_intent = "market_info" then
    handle_market_info env query context
  else if primary_intent = "portfolio_analysis" then
    handle_portfolio_analysis env query context
  else if primary_intent = "risk_assessment" then
    handle_risk_assessment env query entities context
  else if primary_intent = "stock_specific" then
    handle_stock_specific env query entities context
  else if primary_intent = "economic_data" then
    handle_economic_data env query context
  else
    handle_default env query context

/-- A router environment whose narration collaborator
(`language_agent.generate_response`) raises; every other collaborator
succeeds. -/
def envFail : RouterEnv Unit :=
  { retrieve := fun _ _ => Except.ok [],
    generate_response := fun _ _ => Except.error "language model unavailable",
    get_market_indices := fun _ => Except.ok [],
    get_sector_performance := fun _ => Except.ok [],
    get_portfolio_data := fun _ => Except.ok (),
    risk_exposure := fun _ _ => Except.error "no data",
    get_economic_indicators := fun _ => Except.ok [],
    stock_data := fun _ => Except.ok [],
    stock_news := fun _ => Except.ok [] }

/-- C1 evaluation at the failing input: the effective `route_query`
(router.py lines 139-176) has no `try/except`, so a collaborator exception
inside every intent branch propagates to the caller instead of being
converted into a degraded response — contradicting the claim (which the
superseded first `route_query`, lines 49-82, did implement). -/
theorem c1_route_query_propagates_exception :
    route_query envFail "market update please" ⟨some "market_info", some []⟩
        = Except.error "language model unavailable"
      ∧ route_query envFail "my portfolio" ⟨some "portfolio_analysis", some []⟩
        = Except.error "language model unavailable"
      ∧ route_query envFail "risk report" ⟨some "risk_assessment", some []⟩
        = Except.error "language model unavailable"
      ∧ route_query envFail "TSLA news" ⟨some "stock_specific", some ["TSLA"]⟩
        = Except.error "language model unavailable"
      ∧ route_query envFail "treasury yields" ⟨some "economic_data", some []⟩
        = Except.error "language model unavailable"
      ∧ route_query envFail "hello there" ⟨none, none⟩
        = Except.error "language model unavailable" := by
  refine ⟨by decide, by decide, by decide, by decide, by decide, by decide⟩
